import Mathlib

/-!
Shallow embedding of the forwarding-process supervisor of the Smite panel
(`panel/app/gost_forwarder.py`) and of its boot-time reconciliation
(`panel/main.py`), together with theorems settling the specification claims.

Modelling conventions:
* The two module dictionaries `active_forwards` and `forward_configs` are
  association lists with Python-dict semantics (insertion order preserved,
  assignment to an existing key replaces in place, `del` removes the key).
* Values of `active_forwards` are modelled by `RegEntry`: the source stores
  both `subprocess.Popen` handles (under the tunnel id) and open log-file
  handles (under the synthetic key `tunnel_id ++ "_log"`, line 126) in the
  same dict, so the entry type is a sum.
* OS interaction is modelled by an explicit event trace (`Ev`) and by an
  environment record (`StartEnv`) that fixes the outcome of each
  non-deterministic observation (binary resolution, spawn, `poll`, the
  port-liveness probe).  Exceptions are modelled with `Except`.
* A process handle carries the exit status later `poll` calls will report
  (`exitCode`, `none` = still running) and how it reacts to `terminate`
  during `stop_forward` (`TermBehavior`).
-/

/-- How a tracked process reacts to `proc.terminate()` inside `stop_forward`:
it exits within the 5 s wait, it ignores SIGTERM and must be SIGKILLed
(`subprocess.TimeoutExpired` path), or `terminate()` itself raises. -/
inductive TermBehavior
  | graceful
  | ignoresTerm
  | termRaises
deriving Repr, DecidableEq

/-- A `subprocess.Popen` handle: pid, the exit status subsequent `poll()`
calls report (`none` = still running), and its terminate behavior. -/
structure ProcHandle where
  pid : Nat
  exitCode : Option Int
  termBehavior : TermBehavior
deriving Repr, DecidableEq

/-- An open log-file handle (`open(log_file, 'w', buffering=1)`). -/
structure LogHandle where
  fileId : Nat
deriving Repr, DecidableEq

/-- A value stored in the `active_forwards` dict: the source keeps both
process handles (key `tunnel_id`) and log-file handles (key
`tunnel_id ++ "_log"`, line 126) in the same dict. -/
inductive RegEntry
  | proc (p : ProcHandle)
  | logFile (h : LogHandle)
deriving Repr, DecidableEq

/-- The config stored in `forward_configs` by a successful `start_forward`. -/
structure FwdConfig where
  local_port : Nat
  forward_to : String
  tunnel_type : String
deriving Repr, DecidableEq

/-- The Python exceptions the supervisor can raise: `ValueError` for an
unsupported tunnel type, the `RuntimeError`s of binary resolution, spawn
failure and immediate process exit, `AttributeError` from calling a `Popen`
method on a log-file handle, and a failing `terminate()`. -/
inductive FwdErr
  | unsupportedTunnelKind
  | binaryNotFound
  | binaryNotExecutable
  | spawnFailed
  | processExitedImmediately (code : Int)
  | attributeError
  | termFailure
deriving Repr, DecidableEq

/-- Observable side effects of the supervisor, in program order. -/
inductive Ev
  | openLog (fid : Nat)
  | closeLog (fid : Nat)
  | spawn (pid : Nat) (cmd : List String)
  | sleep (ms : Nat)
  | terminate (pid : Nat)
  | kill (pid : Nat)
  | waitEv (pid : Nat)
  | pkill (port : Nat)
  | logWarn
  | logErr
deriving Repr, DecidableEq

/-- The supervisor state: the two dicts of `GostForwarder.__init__`. -/
structure GostForwarder where
  active_forwards : List (String × RegEntry)
  forward_configs : List (String × FwdConfig)
deriving Repr, DecidableEq

/-- Environment resolving the non-deterministic observations made by one
`start_forward` call. -/
structure StartEnv where
  wellKnownExists : Bool
  wellKnownExecutable : Bool
  pathLookup : Option String
  spawnResult : Except Unit Nat
  pollAfterGrace : Option Int
  probeRaises : Bool
  portListening1 : Bool
  portListening2 : Bool
  pollAfterProbe : Option Int
  newLogFid : Nat
  newProcTermBehavior : TermBehavior
deriving Repr

/-! ### Association-list operations with Python-dict semantics -/

/-- Dict lookup. -/
def alLookup {β : Type} : List (String × β) → String → Option β
  | [], _ => none
  | (k, v) :: t, k' => if k = k' then some v else alLookup t k'

/-- `key in dict`. -/
def alContains {β : Type} (l : List (String × β)) (k : String) : Bool :=
  (alLookup l k).isSome

/-- Dict assignment: replace in place if the key is present, else append. -/
def alInsert {β : Type} : List (String × β) → String → β → List (String × β)
  | [], k, v => [(k, v)]
  | (k0, v0) :: t, k, v =>
      if k0 = k then (k, v) :: t else (k0, v0) :: alInsert t k v

/-- `del dict[key]` (removes every binding of the key; dict keys are unique
so on reachable states this is exactly Python's `del`). -/
def alErase {β : Type} : List (String × β) → String → List (String × β)
  | [], _ => []
  | (k0, v0) :: t, k =>
      if k0 = k then alErase t k else (k0, v0) :: alErase t k

/-! ### Command Builder and Binary Locator -/

/-- The command table of `start_forward` lines 43-81: listen scheme per
tunnel type, forward scheme always plain TCP except for `udp`; unknown
kinds raise `ValueError` with no default case. -/
def buildGostCmd (tunnel_type : String) (local_port : Nat) (forward_to : String) :
    Except FwdErr (List String) :=
  if tunnel_type = "tcp" then
    .ok ["/usr/local/bin/gost", "-L=tcp://0.0.0.0:" ++ toString local_port,
         "-F=tcp://" ++ forward_to]
  else if tunnel_type = "udp" then
    .ok ["/usr/local/bin/gost", "-L=udp://0.0.0.0:" ++ toString local_port,
         "-F=udp://" ++ forward_to]
  else if tunnel_type = "ws" then
    .ok ["/usr/local/bin/gost", "-L=ws://0.0.0.0:" ++ toString local_port,
         "-F=tcp://" ++ forward_to]
  else if tunnel_type = "grpc" then
    .ok ["/usr/local/bin/gost", "-L=grpc://0.0.0.0:" ++ toString local_port,
         "-F=tcp://" ++ forward_to]
  else if tunnel_type = "tcpmux" then
    .ok ["/usr/local/bin/gost", "-L=tcpmux://0.0.0.0:" ++ toString local_port,
         "-F=tcp://" ++ forward_to]
  else
    .error .unsupportedTunnelKind

/-- Binary resolution, lines 83-99: the fixed install path
`/usr/local/bin/gost` is tried first; if it exists, only its executable bit
is checked; if absent, `shutil.which("gost")` is consulted. -/
def resolveBinary (env : StartEnv) : Except FwdErr String :=
  if env.wellKnownExists then
    if env.wellKnownExecutable then .ok "/usr/local/bin/gost"
    else .error .binaryNotExecutable
  else
    match env.pathLookup with
    | some p => .ok p
    | none => .error .binaryNotFound

/-! ### stop_forward -/

/-- The `try: proc.terminate(); proc.wait(timeout=5) except TimeoutExpired:
proc.kill(); proc.wait()` block of `stop_forward` (lines 202-207).  Calling
`terminate()` on a log-file handle raises `AttributeError`. -/
def terminateAttempt : RegEntry → Except FwdErr (List Ev)
  | .proc p =>
    match p.termBehavior with
    | .graceful => .ok [Ev.terminate p.pid, Ev.waitEv p.pid]
    | .ignoresTerm => .ok [Ev.terminate p.pid, Ev.kill p.pid, Ev.waitEv p.pid]
    | .termRaises => .error .termFailure
  | .logFile _ => .error .attributeError

/-- The handle-teardown half of `stop_forward` (lines 200-220): terminate
the tracked entry (failures swallowed by `except Exception`, line 208),
then the `finally` block deletes the entry, closes and deletes the log
entry under `tunnel_id ++ "_log"` when present.  Returns the new
`active_forwards` and the events. -/
def stopHandlePhase (g : GostForwarder) (tunnel_id : String) :
    List (String × RegEntry) × List Ev :=
  match alLookup g.active_forwards tunnel_id with
  | some entry =>
      let evTerm :=
        match terminateAttempt entry with
        | .ok evs => evs
        | .error _ => [Ev.logWarn]
      let a1 := alErase g.active_forwards tunnel_id
      let logKey := tunnel_id ++ "_log"
      (match alLookup a1 logKey with
       | some (.logFile h) => (alErase a1 logKey, evTerm ++ [Ev.closeLog h.fileId])
       | some (.proc _) => (alErase a1 logKey, evTerm)
       | none => (a1, evTerm))
  | none => (g.active_forwards, [])

/-- The pkill sweep of `stop_forward` (lines 222-232): only reached when a
config is stored, and `if local_port:` makes `0` falsy. -/
def stopSweepEvents (g : GostForwarder) (tunnel_id : String) : List Ev :=
  match alLookup g.forward_configs tunnel_id with
  | some cfg => if cfg.local_port ≠ 0 then [Ev.pkill cfg.local_port] else []
  | none => []

/-- `stop_forward` (lines 198-235).  The `Except` return type records that
every internal failure is handled: the terminate failure is swallowed by
`except Exception` (line 208), the log close by a bare `except` (line 217),
the pkill by `except Exception` (line 231); no branch builds `.error`. -/
def stop_forward (g : GostForwarder) (tunnel_id : String) :
    Except FwdErr (GostForwarder × List Ev) :=
  let h := stopHandlePhase g tunnel_id
  .ok ({ active_forwards := h.1,
         forward_configs := alErase g.forward_configs tunnel_id },
       h.2 ++ stopSweepEvents g tunnel_id)

/-- Total extraction of `stop_forward` (its error branch is unreachable,
see `stop_forward_total_and_noop`). -/
def stopOk (g : GostForwarder) (tunnel_id : String) : GostForwarder × List Ev :=
  match stop_forward g tunnel_id with
  | .ok r => r
  | .error _ => (g, [])

/-! ### start_forward -/

/-- Lines 34-39: if an entry already exists, stop it first, then sleep
0.5 s for the port to be released. -/
def startStopPhase (g : GostForwarder) (tunnel_id : String) :
    GostForwarder × List Ev :=
  if alContains g.active_forwards tunnel_id then
    ((stopOk g tunnel_id).1, (stopOk g tunnel_id).2 ++ [Ev.sleep 500])
  else (g, [])

/-- The port-verification block, lines 153-182.  Returns its events and the
exit status the registered handle will later report.  The `RuntimeError`
raised at line 178 when the process is found dead after the failed probe is
caught by the `except Exception` at line 181 and downgraded to a warning. -/
def probePhase (env : StartEnv) : List Ev × Option Int :=
  if env.probeRaises then ([Ev.logWarn], none)
  else if env.portListening1 then ([], none)
  else if env.portListening2 then ([Ev.sleep 500], none)
  else
    match env.pollAfterProbe with
    | some c => ([Ev.sleep 500, Ev.logWarn], some c)
    | none => ([Ev.sleep 500, Ev.logWarn], none)

/-- Lines 104-192: open the log sink, spawn, register the log handle under
`tunnel_id ++ "_log"` (line 126), grace wait and poll, port verification,
then registration of process handle and config.  Every error path appends
`Ev.logErr` for the `logger.error` + re-raise at lines 194-196. -/
def startSpawn (env : StartEnv) (g : GostForwarder) (tunnel_id : String)
    (local_port : Nat) (forward_to : String) (tunnel_type : String)
    (cmd : List String) :
    Except FwdErr Unit × GostForwarder × List Ev :=
  match env.spawnResult with
  | .error _ => (.error .spawnFailed, g, [Ev.openLog env.newLogFid, Ev.logErr])
  | .ok pid =>
    let g2 : GostForwarder :=
      { g with active_forwards :=
          (alInsert g.active_forwards (tunnel_id ++ "_log")
            (RegEntry.logFile ⟨env.newLogFid⟩)) }
    match env.pollAfterGrace with
    | some c =>
        (.error (.processExitedImmediately c), g2,
         [Ev.openLog env.newLogFid, Ev.spawn pid cmd, Ev.sleep 1500, Ev.logErr])
    | none =>
        let g3 : GostForwarder :=
          { active_forwards :=
              (alInsert g2.active_forwards tunnel_id
                (RegEntry.proc ⟨pid, (probePhase env).2, env.newProcTermBehavior⟩)),
            forward_configs :=
              (alInsert g2.forward_configs tunnel_id
                ⟨local_port, forward_to, tunnel_type⟩) }
        (.ok (), g3,
         [Ev.openLog env.newLogFid, Ev.spawn pid cmd, Ev.sleep 1500,
          Ev.sleep 500] ++ (probePhase env).1)

/-- Lines 41-101 followed by the spawn phase: build the command, resolve
the binary (replacing `cmd[0]`), then spawn.  Both failures happen before
any log sink is opened or process created. -/
def startCore (env : StartEnv) (g : GostForwarder) (tunnel_id : String)
    (local_port : Nat) (forward_to : String) (tunnel_type : String) :
    Except FwdErr Unit × GostForwarder × List Ev :=
  match buildGostCmd tunnel_type local_port forward_to with
  | .error e => (.error e, g, [Ev.logErr])
  | .ok cmd =>
    match resolveBinary env with
    | .error e => (.error e, g, [Ev.logErr])
    | .ok bin =>
        startSpawn env g tunnel_id local_port forward_to tunnel_type
          (bin :: cmd.tail)

/-- `start_forward` (lines 20-196): stop-before-start, then the core. -/
def start_forward (env : StartEnv) (g : GostForwarder) (tunnel_id : String)
    (local_port : Nat) (forward_to : String) (tunnel_type : String) :
    Except FwdErr Unit × GostForwarder × List Ev :=
  let s0 := startStopPhase g tunnel_id
  let c := startCore env s0.1 tunnel_id local_port forward_to tunnel_type
  (c.1, c.2.1, s0.2 ++ c.2.2)

/-! ### is_forwarding, get_forwarding_tunnels, cleanup_all -/

/-- `is_forwarding` (lines 237-258): absent entry reports false; a dead
entry with a stored config triggers one restart through `start_forward`,
whose exception is caught (lines 255-257) and reported as `false`.
`proc.poll()` on a log-file entry raises `AttributeError`. -/
def is_forwarding (env : StartEnv) (g : GostForwarder) (tunnel_id : String) :
    Except FwdErr Bool × GostForwarder × List Ev :=
  match alLookup g.active_forwards tunnel_id with
  | none => (.ok false, g, [])
  | some (.logFile _) => (.error .attributeError, g, [])
  | some (.proc p) =>
    match p.exitCode with
    | none => (.ok true, g, [])
    | some _ =>
      match alLookup g.forward_configs tunnel_id with
      | none => (.ok false, g, [])
      | some cfg =>
        let t :=
          start_forward env g tunnel_id cfg.local_port cfg.forward_to
            cfg.tunnel_type
        match t.1 with
        | .ok _ => (.ok true, t.2.1, Ev.logWarn :: t.2.2)
        | .error _ => (.ok false, t.2.1, Ev.logWarn :: (t.2.2 ++ [Ev.logErr]))

/-- The enumeration loop of `get_forwarding_tunnels` (lines 260-272) over
the snapshot `list(self.active_forwards.items())`, threading the mutated
state.  `proc.poll()` on a log-file entry raises `AttributeError`. -/
def gftLoop : List (String × RegEntry) → GostForwarder → List String →
    Except FwdErr (List String) × GostForwarder
  | [], g, acc => (.ok acc.reverse, g)
  | (_, .logFile _) :: _, g, _ => (.error .attributeError, g)
  | (tunnel_id, .proc p) :: rest, g, acc =>
    match p.exitCode with
    | none => gftLoop rest g (tunnel_id :: acc)
    | some _ =>
        gftLoop rest
          { active_forwards := alErase g.active_forwards tunnel_id,
            forward_configs := alErase g.forward_configs tunnel_id } acc

/-- `get_forwarding_tunnels` (lines 260-272). -/
def get_forwarding_tunnels (g : GostForwarder) :
    Except FwdErr (List String) × GostForwarder :=
  gftLoop g.active_forwards g []

/-- Sequential `stop_forward` over a list of keys. -/
def stopList (g : GostForwarder) : List String → GostForwarder × List Ev
  | [] => (g, [])
  | tunnel_id :: rest =>
    let r1 := stopOk g tunnel_id
    let r2 := stopList r1.1 rest
    (r2.1, r1.2 ++ r2.2)

/-- `cleanup_all` (lines 274-278): stop every key of the initial dict. -/
def cleanup_all (g : GostForwarder) : GostForwarder × List Ev :=
  stopList g (g.active_forwards.map (fun p => p.1))

/-! ### Boot-time reconciliation (`panel/main.py`)

The reconciliation loops live in `main.py`; the supervisors they call
(`app.port_forwarder.port_forwarder` and `app.rathole_server_manager`) are
not part of the provided sources, so their start operations are modelled
from the spec. -/

/-- The `spec` mapping of a persisted tunnel record; `none` models both an
absent key and Python-falsy values for the string fields. -/
structure TunnelSpec where
  remote_port : Option Nat
  listen_port : Option Nat
  remote_addr : Option String
  token : Option String
deriving Repr, DecidableEq

/-- A persisted tunnel row, as consumed by the reconciler. -/
structure TunnelRec where
  id : String
  status : String
  ttype : String
  core : String
  node_id : Nat
  tspec : TunnelSpec
deriving Repr, DecidableEq

/-- A node row: `node_metadata.get("ip_address")`, with `none` covering a
missing metadata mapping, a missing key and a falsy value alike. -/
structure NodeRec where
  nid : Nat
  ip_address : Option String
deriving Repr, DecidableEq

/-- Events of the reconciliation passes: the arguments of each supervisor
start call, and the `logger.error` of the pass-level `except` handler. -/
inductive RestoreEv
  | startCall (local_port : Nat) (node_address : String) (remote_port : Nat)
  | startServer (tunnel_id : String) (remote_addr : String) (token : String)
      (proxy_port : Nat)
  | logError
deriving Repr, DecidableEq

/-- `remote_port = tunnel.spec.get("remote_port") or tunnel.spec.get("listen_port")`
followed by `if not remote_port` — Python truthiness makes `0` fall
through and be skipped. -/
def effectivePort (ts : TunnelSpec) : Option Nat :=
  match ts.remote_port with
  | some p => if p ≠ 0 then some p else
      match ts.listen_port with
      | some q => if q ≠ 0 then some q else none
      | none => none
  | none =>
      match ts.listen_port with
      | some q => if q ≠ 0 then some q else none
      | none => none

/-- `select(Node).where(Node.id == tunnel.node_id)` + `scalar_one_or_none`. -/
def findNode : List NodeRec → Nat → Option NodeRec
  | [], _ => none
  | n :: t, i => if n.nid = i then some n else findNode t i

/-- The loop body of `_restore_port_forwards` (lines 71-97).  `pfStart`
models `app.port_forwarder.start_forward(local_port, node_address,
remote_port)`.

Modelled from the spec: `port_forwarder` is not among the provided sources;
per the spec the Supervisor's `start` returns success or raises an error
(§4.1, §7), so its outcome is supplied abstractly by `pfStart`.  A raised
error propagates out of the loop to the single `except Exception` at line
98, which logs once; the remaining tunnels are not processed. -/
def restorePFLoop (pfStart : Nat → String → Nat → Except Unit Unit)
    (nodes : List NodeRec) : List TunnelRec → List RestoreEv
  | [] => []
  | t :: rest =>
    if ¬ ((t.ttype = "tcp" ∨ t.ttype = "ws" ∨ t.ttype = "grpc") ∧ t.core = "xray") then
      restorePFLoop pfStart nodes rest
    else
      match effectivePort t.tspec with
      | none => restorePFLoop pfStart nodes rest
      | some port =>
        match findNode nodes t.node_id with
        | none => restorePFLoop pfStart nodes rest
        | some node =>
          match node.ip_address with
          | none => restorePFLoop pfStart nodes rest
          | some addr =>
            match pfStart port addr port with
            | .ok _ => RestoreEv.startCall port addr port ::
                restorePFLoop pfStart nodes rest
            | .error _ => [RestoreEv.startCall port addr port, RestoreEv.logError]

/-- `_restore_port_forwards` (lines 64-99): only rows with
`status == "active"` are selected. -/
def restore_port_forwards (pfStart : Nat → String → Nat → Except Unit Unit)
    (tunnels : List TunnelRec) (nodes : List NodeRec) : List RestoreEv :=
  restorePFLoop pfStart nodes (tunnels.filter (fun t => t.status = "active"))

/-- The loop body of `_restore_rathole_servers` (lines 109-127).

Modelled from the spec: `rathole_server_manager` is not among the provided
sources; `rsStart` supplies each `start_server` call's outcome, errors
propagating to the pass-level handler at line 128. -/
def restoreRHLoop (rsStart : String → String → String → Nat → Except Unit Unit) :
    List TunnelRec → List RestoreEv
  | [] => []
  | t :: rest =>
    if t.core ≠ "rathole" then restoreRHLoop rsStart rest
    else
      match t.tspec.remote_addr, t.tspec.token, effectivePort t.tspec with
      | some addr, some tok, some port =>
        (match rsStart t.id addr tok port with
         | .ok _ => RestoreEv.startServer t.id addr tok port ::
             restoreRHLoop rsStart rest
         | .error _ => [RestoreEv.startServer t.id addr tok port,
             RestoreEv.logError])
      | _, _, _ => restoreRHLoop rsStart rest

/-- `_restore_rathole_servers` (lines 102-129). -/
def restore_rathole_servers
    (rsStart : String → String → String → Nat → Except Unit Unit)
    (tunnels : List TunnelRec) : List RestoreEv :=
  restoreRHLoop rsStart (tunnels.filter (fun t => t.status = "active"))

/-- The boot sequence of `lifespan` (lines 46-49): the two restore passes
run one after the other, each wrapped in its own `try`/`except`. -/
def bootRestore (pfStart : Nat → String → Nat → Except Unit Unit)
    (rsStart : String → String → String → Nat → Except Unit Unit)
    (tunnels : List TunnelRec) (nodes : List NodeRec) : List RestoreEv :=
  restore_port_forwards pfStart tunnels nodes ++
    restore_rathole_servers rsStart tunnels

/-! ### Trace observations -/

/-- Whether a trace contains a process spawn. -/
def hasSpawn (l : List Ev) : Bool :=
  l.any (fun e => match e with | .spawn _ _ => true | _ => false)

/-- Whether a trace contains a log-sink open. -/
def hasOpenLog (l : List Ev) : Bool :=
  l.any (fun e => match e with | .openLog _ => true | _ => false)

/-- Whether a trace contains a log-sink close. -/
def hasCloseLog (l : List Ev) : Bool :=
  l.any (fun e => match e with | .closeLog _ => true | _ => false)


deriving instance DecidableEq for Except

/-! ## Helper lemmas about the dict operations -/

theorem alLookup_alInsert_self {β : Type} :
    ∀ (l : List (String × β)) (k : String) (v : β),
      alLookup (alInsert l k v) k = some v := by
  intro l k v
  induction l with
  | nil => simp [alInsert, alLookup]
  | cons p t ih =>
    obtain ⟨k0, v0⟩ := p
    by_cases h : k0 = k
    · simp [alInsert, alLookup, h]
    · simp [alInsert, alLookup, h, ih]

theorem alLookup_alInsert_ne {β : Type} :
    ∀ (l : List (String × β)) (k : String) (v : β) (k' : String), k ≠ k' →
      alLookup (alInsert l k v) k' = alLookup l k' := by
  intro l k v k' hne
  induction l with
  | nil => simp [alInsert, alLookup, hne]
  | cons p t ih =>
    obtain ⟨k0, v0⟩ := p
    by_cases h : k0 = k
    · subst h
      simp [alInsert, alLookup, hne]
    · simp [alInsert, alLookup, h, ih]

theorem alLookup_alErase_self {β : Type} :
    ∀ (l : List (String × β)) (k : String),
      alLookup (alErase l k) k = none := by
  intro l k
  induction l with
  | nil => simp [alErase, alLookup]
  | cons p t ih =>
    obtain ⟨k0, v0⟩ := p
    by_cases h : k0 = k
    · simp [alErase, h, ih]
    · simp [alErase, alLookup, h, ih]

theorem alLookup_alErase_ne {β : Type} :
    ∀ (l : List (String × β)) (k : String) (k' : String), k ≠ k' →
      alLookup (alErase l k) k' = alLookup l k' := by
  intro l k k' hne
  induction l with
  | nil => simp [alErase]
  | cons p t ih =>
    obtain ⟨k0, v0⟩ := p
    by_cases h : k0 = k
    · subst h
      simp [alErase, alLookup, hne, ih]
    · simp [alErase, alLookup, h, ih]

theorem alErase_of_lookup_none {β : Type} :
    ∀ (l : List (String × β)) (k : String),
      alLookup l k = none → alErase l k = l := by
  intro l k h
  induction l with
  | nil => simp [alErase]
  | cons p t ih =>
    obtain ⟨k0, v0⟩ := p
    by_cases hk : k0 = k
    · simp [alLookup, hk] at h
    · simp [alLookup, hk] at h
      simp [alErase, hk, ih h]

/-- Number of bindings of a key, to state uniqueness of registry entries. -/
def countKey {β : Type} : List (String × β) → String → Nat
  | [], _ => 0
  | (k0, _) :: t, k => (if k0 = k then 1 else 0) + countKey t k

theorem countKey_alErase_self {β : Type} :
    ∀ (l : List (String × β)) (k : String), countKey (alErase l k) k = 0 := by
  intro l k
  induction l with
  | nil => simp [alErase, countKey]
  | cons p t ih =>
    obtain ⟨k0, v0⟩ := p
    by_cases h : k0 = k
    · simp [alErase, h, ih]
    · simp [alErase, countKey, h, ih]

theorem countKey_alErase_ne {β : Type} :
    ∀ (l : List (String × β)) (k' k : String), k' ≠ k →
      countKey (alErase l k') k = countKey l k := by
  intro l k' k hne
  induction l with
  | nil => simp [alErase]
  | cons p t ih =>
    obtain ⟨k0, v0⟩ := p
    by_cases h : k0 = k'
    · subst h
      simp [alErase, countKey, hne, ih]
    · simp [alErase, countKey, h, ih]

theorem countKey_alInsert_ne {β : Type} :
    ∀ (l : List (String × β)) (k' k : String) (v : β), k' ≠ k →
      countKey (alInsert l k' v) k = countKey l k := by
  intro l k' k v hne
  induction l with
  | nil => simp [alInsert, countKey, hne]
  | cons p t ih =>
    obtain ⟨k0, v0⟩ := p
    by_cases h : k0 = k'
    · subst h
      simp [alInsert, countKey, hne]
    · simp [alInsert, countKey, h, ih]

theorem countKey_alInsert_of_lookup_none {β : Type} :
    ∀ (l : List (String × β)) (k : String) (v : β), alLookup l k = none →
      countKey (alInsert l k v) k = countKey l k + 1 := by
  intro l k v h
  induction l with
  | nil => simp [alInsert, countKey]
  | cons p t ih =>
    obtain ⟨k0, v0⟩ := p
    by_cases hk : k0 = k
    · simp [alLookup, hk] at h
    · simp [alLookup, hk] at h
      simp [alInsert, countKey, hk, ih h]

theorem countKey_eq_zero_of_lookup_none {β : Type} :
    ∀ (l : List (String × β)) (k : String),
      alLookup l k = none → countKey l k = 0 := by
  intro l k h
  induction l with
  | nil => rfl
  | cons p t ih =>
    obtain ⟨k0, v0⟩ := p
    by_cases hk : k0 = k
    · simp [alLookup, hk] at h
    · simp [alLookup, hk] at h
      simp [countKey, hk, ih h]

theorem string_ne_append_log (s : String) : s ≠ s ++ "_log" := by
  intro h
  have hlen := congrArg String.length h
  rw [String.length_append] at hlen
  have h4 : ("_log" : String).length = 4 := rfl
  omega

theorem append_log_ne_string (s : String) : s ++ "_log" ≠ s :=
  fun h => string_ne_append_log s h.symm

/-! ## Lemmas about stop_forward -/

theorem stop_forward_eq_ok (g : GostForwarder) (tunnel_id : String) :
    stop_forward g tunnel_id = .ok (stopOk g tunnel_id) := rfl

theorem stopOk_eq (g : GostForwarder) (tunnel_id : String) :
    stopOk g tunnel_id =
      ({ active_forwards := (stopHandlePhase g tunnel_id).1,
         forward_configs := alErase g.forward_configs tunnel_id },
       (stopHandlePhase g tunnel_id).2 ++ stopSweepEvents g tunnel_id) := rfl

theorem stopHandlePhase_of_lookup_none (g : GostForwarder) (tunnel_id : String)
    (h : alLookup g.active_forwards tunnel_id = none) :
    stopHandlePhase g tunnel_id = (g.active_forwards, []) := by
  unfold stopHandlePhase
  rw [h]

/-- After `stop_forward`, no binding of the tunnel id remains in
`active_forwards` (the `finally` block always deletes it). -/
theorem stopOk_lookup_self (g : GostForwarder) (tunnel_id : String) :
    alLookup (stopOk g tunnel_id).1.active_forwards tunnel_id = none := by
  rw [stopOk_eq]
  unfold stopHandlePhase
  cases hA : alLookup g.active_forwards tunnel_id with
  | none => exact hA
  | some entry =>
    dsimp only
    cases hL : alLookup (alErase g.active_forwards tunnel_id)
        (tunnel_id ++ "_log") with
    | none => exact alLookup_alErase_self _ _
    | some e2 =>
      cases e2 with
      | proc q =>
        rw [alLookup_alErase_ne _ _ _ (append_log_ne_string tunnel_id)]
        exact alLookup_alErase_self _ _
      | logFile h2 =>
        rw [alLookup_alErase_ne _ _ _ (append_log_ne_string tunnel_id)]
        exact alLookup_alErase_self _ _

theorem stopOk_countKey_self (g : GostForwarder) (tunnel_id : String) :
    countKey (stopOk g tunnel_id).1.active_forwards tunnel_id = 0 := by
  rw [stopOk_eq]
  unfold stopHandlePhase
  cases hA : alLookup g.active_forwards tunnel_id with
  | none =>
    dsimp only
    exact countKey_eq_zero_of_lookup_none _ _ hA
  | some entry =>
    dsimp only
    cases hL : alLookup (alErase g.active_forwards tunnel_id)
        (tunnel_id ++ "_log") with
    | none => exact countKey_alErase_self _ _
    | some e2 =>
      cases e2 with
      | proc q =>
        rw [countKey_alErase_ne _ _ _ (append_log_ne_string tunnel_id)]
        exact countKey_alErase_self _ _
      | logFile h2 =>
        rw [countKey_alErase_ne _ _ _ (append_log_ne_string tunnel_id)]
        exact countKey_alErase_self _ _

theorem stopHandlePhase_events_tame (g : GostForwarder) (tunnel_id : String) :
    hasSpawn (stopHandlePhase g tunnel_id).2 = false ∧
    hasOpenLog (stopHandlePhase g tunnel_id).2 = false := by
  unfold stopHandlePhase
  cases hA : alLookup g.active_forwards tunnel_id with
  | none => simp [hasSpawn, hasOpenLog]
  | some entry =>
    dsimp only
    cases hL : alLookup (alErase g.active_forwards tunnel_id)
        (tunnel_id ++ "_log") with
    | none =>
      cases entry with
      | proc p =>
        cases hp : p.termBehavior <;>
          simp [terminateAttempt, hp, hasSpawn, hasOpenLog]
      | logFile h => simp [terminateAttempt, hasSpawn, hasOpenLog]
    | some e2 =>
      cases e2 with
      | proc q =>
        cases entry with
        | proc p =>
          cases hp : p.termBehavior <;>
            simp [terminateAttempt, hp, hasSpawn, hasOpenLog]
        | logFile h => simp [terminateAttempt, hasSpawn, hasOpenLog]
      | logFile h2 =>
        cases entry with
        | proc p =>
          cases hp : p.termBehavior <;>
            simp [terminateAttempt, hp, hasSpawn, hasOpenLog]
        | logFile h => simp [terminateAttempt, hasSpawn, hasOpenLog]

theorem stopSweepEvents_tame (g : GostForwarder) (tunnel_id : String) :
    hasSpawn (stopSweepEvents g tunnel_id) = false ∧
    hasOpenLog (stopSweepEvents g tunnel_id) = false := by
  unfold stopSweepEvents
  cases hC : alLookup g.forward_configs tunnel_id with
  | none => simp [hasSpawn, hasOpenLog]
  | some cfg =>
    by_cases hp : cfg.local_port ≠ 0 <;> simp [hp, hasSpawn, hasOpenLog]

theorem stopOk_events_tame (g : GostForwarder) (tunnel_id : String) :
    hasSpawn (stopOk g tunnel_id).2 = false ∧
    hasOpenLog (stopOk g tunnel_id).2 = false := by
  rw [stopOk_eq]
  have h1 := stopHandlePhase_events_tame g tunnel_id
  have h2 := stopSweepEvents_tame g tunnel_id
  constructor
  · simp [hasSpawn, List.any_append] at h1 h2 ⊢
    exact ⟨h1.1, h2.1⟩
  · simp [hasOpenLog, List.any_append] at h1 h2 ⊢
    exact ⟨h1.2, h2.2⟩

/-- C7: `stop_forward` never raises — every internal failure is swallowed
by the handlers mirrored in its definition — and stopping a tunnel with no
registry entry and no stored config returns the state unchanged with no
side effects. -/
theorem stop_never_raises_and_missing_noop :
    (∀ (g : GostForwarder) (tunnel_id : String),
       (stop_forward g tunnel_id).isOk = true) ∧
    (∀ (g : GostForwarder) (tunnel_id : String),
       alLookup g.active_forwards tunnel_id = none →
       alLookup g.forward_configs tunnel_id = none →
       stop_forward g tunnel_id = .ok (g, [])) := by
  constructor
  · intro g tunnel_id
    rfl
  · intro g tunnel_id hA hC
    unfold stop_forward
    dsimp only
    rw [stopHandlePhase_of_lookup_none g tunnel_id hA]
    have h2 : stopSweepEvents g tunnel_id = [] := by
      unfold stopSweepEvents
      rw [hC]
    rw [h2, alErase_of_lookup_none _ _ hC]
    rfl

/-- Witness for C7 at a concrete empty supervisor and an unknown tunnel. -/
theorem stop_never_raises_and_missing_noop_witness :
    stop_forward ⟨[], []⟩ "absent" = .ok (⟨[], []⟩, []) ∧
    (stop_forward ⟨[], []⟩ "absent").isOk = true :=
  ⟨stop_never_raises_and_missing_noop.2 ⟨[], []⟩ "absent" rfl rfl,
   stop_never_raises_and_missing_noop.1 ⟨[], []⟩ "absent"⟩

/-- C8: whenever a config is stored for the tunnel (its `local_port` being
a real, nonzero port), `stop_forward` emits the pkill sweep for that port —
independently of whether `active_forwards` tracks a handle for the id,
since the sweep is keyed on `forward_configs` alone (lines 222-232). -/
theorem stop_sweeps_port_regardless_of_handle :
    ∀ (g : GostForwarder) (tunnel_id : String) (cfg : FwdConfig),
      alLookup g.forward_configs tunnel_id = some cfg →
      cfg.local_port ≠ 0 →
      Ev.pkill cfg.local_port ∈ (stopOk g tunnel_id).2 := by
  intro g tunnel_id cfg hC hp
  rw [stopOk_eq]
  have h2 : stopSweepEvents g tunnel_id = [Ev.pkill cfg.local_port] := by
    unfold stopSweepEvents
    rw [hC]
    simp [hp]
  simp [h2]

/-- Witness for C8: a supervisor with a stored config but no tracked
handle still sweeps the port. -/
theorem stop_sweeps_port_regardless_of_handle_witness :
    Ev.pkill 9000 ∈
      (stopOk ⟨[], [("t8", ⟨9000, "10.0.0.1:443", "tcp"⟩)]⟩ "t8").2 :=
  stop_sweeps_port_regardless_of_handle
    ⟨[], [("t8", ⟨9000, "10.0.0.1:443", "tcp"⟩)]⟩ "t8"
    ⟨9000, "10.0.0.1:443", "tcp"⟩ rfl (by decide)

/-! ## Lemmas about start_forward -/

theorem hasSpawn_append (a b : List Ev) :
    hasSpawn (a ++ b) = (hasSpawn a || hasSpawn b) := by
  simp [hasSpawn, List.any_append]

theorem hasOpenLog_append (a b : List Ev) :
    hasOpenLog (a ++ b) = (hasOpenLog a || hasOpenLog b) := by
  simp [hasOpenLog, List.any_append]

theorem hasCloseLog_append (a b : List Ev) :
    hasCloseLog (a ++ b) = (hasCloseLog a || hasCloseLog b) := by
  simp [hasCloseLog, List.any_append]

theorem start_forward_eq (env : StartEnv) (g : GostForwarder)
    (tunnel_id : String) (local_port : Nat) (forward_to : String)
    (tunnel_type : String) :
    start_forward env g tunnel_id local_port forward_to tunnel_type =
      ((startCore env (startStopPhase g tunnel_id).1 tunnel_id local_port
          forward_to tunnel_type).1,
       (startCore env (startStopPhase g tunnel_id).1 tunnel_id local_port
          forward_to tunnel_type).2.1,
       (startStopPhase g tunnel_id).2 ++
         (startCore env (startStopPhase g tunnel_id).1 tunnel_id local_port
            forward_to tunnel_type).2.2) := rfl

theorem startStopPhase_of_not_contains (g : GostForwarder) (tunnel_id : String)
    (h : alContains g.active_forwards tunnel_id = false) :
    startStopPhase g tunnel_id = (g, []) := by
  unfold startStopPhase
  rw [h]
  rfl

theorem startStopPhase_of_contains (g : GostForwarder) (tunnel_id : String)
    (h : alContains g.active_forwards tunnel_id = true) :
    startStopPhase g tunnel_id =
      ((stopOk g tunnel_id).1, (stopOk g tunnel_id).2 ++ [Ev.sleep 500]) := by
  unfold startStopPhase
  rw [h]
  rfl

theorem startStopPhase_events_tame (g : GostForwarder) (tunnel_id : String) :
    hasSpawn (startStopPhase g tunnel_id).2 = false ∧
    hasOpenLog (startStopPhase g tunnel_id).2 = false := by
  by_cases h : alContains g.active_forwards tunnel_id
  · rw [startStopPhase_of_contains g tunnel_id h]
    have ht := stopOk_events_tame g tunnel_id
    constructor
    · rw [hasSpawn_append, ht.1]
      rfl
    · rw [hasOpenLog_append, ht.2]
      rfl
  · rw [startStopPhase_of_not_contains g tunnel_id (by simpa using h)]
    constructor <;> rfl

theorem startStopPhase_lookup_self (g : GostForwarder) (tunnel_id : String) :
    alLookup (startStopPhase g tunnel_id).1.active_forwards tunnel_id = none := by
  by_cases h : alContains g.active_forwards tunnel_id
  · rw [startStopPhase_of_contains g tunnel_id h]
    exact stopOk_lookup_self g tunnel_id
  · rw [startStopPhase_of_not_contains g tunnel_id (by simpa using h)]
    cases hL : alLookup g.active_forwards tunnel_id with
    | none => rfl
    | some v =>
      rw [alContains, hL] at h
      simp at h

theorem startStopPhase_countKey_self (g : GostForwarder) (tunnel_id : String) :
    countKey (startStopPhase g tunnel_id).1.active_forwards tunnel_id = 0 := by
  by_cases h : alContains g.active_forwards tunnel_id
  · rw [startStopPhase_of_contains g tunnel_id h]
    exact stopOk_countKey_self g tunnel_id
  · rw [startStopPhase_of_not_contains g tunnel_id (by simpa using h)]
    cases hL : alLookup g.active_forwards tunnel_id with
    | none => exact countKey_eq_zero_of_lookup_none _ _ hL
    | some v =>
      rw [alContains, hL] at h
      simp at h

/-- C5: the Command Builder is a pure fixed table — tcp, udp, ws, grpc,
tcpmux listen on `0.0.0.0:local_port` under their own scheme and forward to
the target over plain TCP except udp-to-udp — and any other kind makes
`start_forward` fail with the unsupported-kind error before any process is
spawned or any log sink opened, with no default case. -/
theorem command_table_and_unsupported_rejected :
    (∀ (local_port : Nat) (forward_to : String),
      buildGostCmd "tcp" local_port forward_to =
        .ok ["/usr/local/bin/gost", "-L=tcp://0.0.0.0:" ++ toString local_port,
             "-F=tcp://" ++ forward_to] ∧
      buildGostCmd "udp" local_port forward_to =
        .ok ["/usr/local/bin/gost", "-L=udp://0.0.0.0:" ++ toString local_port,
             "-F=udp://" ++ forward_to] ∧
      buildGostCmd "ws" local_port forward_to =
        .ok ["/usr/local/bin/gost", "-L=ws://0.0.0.0:" ++ toString local_port,
             "-F=tcp://" ++ forward_to] ∧
      buildGostCmd "grpc" local_port forward_to =
        .ok ["/usr/local/bin/gost", "-L=grpc://0.0.0.0:" ++ toString local_port,
             "-F=tcp://" ++ forward_to] ∧
      buildGostCmd "tcpmux" local_port forward_to =
        .ok ["/usr/local/bin/gost", "-L=tcpmux://0.0.0.0:" ++ toString local_port,
             "-F=tcp://" ++ forward_to]) ∧
    (∀ (env : StartEnv) (g : GostForwarder) (tunnel_id : String)
       (local_port : Nat) (forward_to : String) (tunnel_type : String),
      tunnel_type ∉ (["tcp", "udp", "ws", "grpc", "tcpmux"] : List String) →
      (start_forward env g tunnel_id local_port forward_to tunnel_type).1 =
        .error .unsupportedTunnelKind ∧
      hasSpawn (start_forward env g tunnel_id local_port forward_to
        tunnel_type).2.2 = false ∧
      hasOpenLog (start_forward env g tunnel_id local_port forward_to
        tunnel_type).2.2 = false) := by
  constructor
  · intro local_port forward_to
    exact ⟨rfl, rfl, rfl, rfl, rfl⟩
  · intro env g tunnel_id local_port forward_to tunnel_type h
    have hb : buildGostCmd tunnel_type local_port forward_to =
        .error .unsupportedTunnelKind := by
      simp only [List.mem_cons, List.not_mem_nil, or_false, not_or] at h
      obtain ⟨h1, h2, h3, h4, h5⟩ := h
      unfold buildGostCmd
      simp [h1, h2, h3, h4, h5]
    have hc : startCore env (startStopPhase g tunnel_id).1 tunnel_id
        local_port forward_to tunnel_type =
        (.error .unsupportedTunnelKind, (startStopPhase g tunnel_id).1,
         [Ev.logErr]) := by
      unfold startCore
      rw [hb]
    rw [start_forward_eq, hc]
    have ht := startStopPhase_events_tame g tunnel_id
    refine ⟨rfl, ?_, ?_⟩
    · rw [hasSpawn_append, ht.1]
      rfl
    · rw [hasOpenLog_append, ht.2]
      rfl

/-- Witness for C5: the `"bogus"` kind at a concrete supervisor. -/
theorem command_table_and_unsupported_rejected_witness :
    buildGostCmd "tcp" 8080 "1.2.3.4:443" =
      .ok ["/usr/local/bin/gost", "-L=tcp://0.0.0.0:8080",
           "-F=tcp://1.2.3.4:443"] ∧
    (start_forward ⟨true, true, none, .ok 41, none, false, true, true, none,
        9, .graceful⟩ ⟨[], []⟩ "t5" 8080 "1.2.3.4:443" "bogus").1 =
      .error .unsupportedTunnelKind ∧
    hasSpawn (start_forward ⟨true, true, none, .ok 41, none, false, true,
        true, none, 9, .graceful⟩ ⟨[], []⟩ "t5" 8080 "1.2.3.4:443"
        "bogus").2.2 = false ∧
    hasOpenLog (start_forward ⟨true, true, none, .ok 41, none, false, true,
        true, none, 9, .graceful⟩ ⟨[], []⟩ "t5" 8080 "1.2.3.4:443"
        "bogus").2.2 = false :=
  ⟨(command_table_and_unsupported_rejected.1 8080 "1.2.3.4:443").1,
   command_table_and_unsupported_rejected.2
     ⟨true, true, none, .ok 41, none, false, true, true, none, 9, .graceful⟩
     ⟨[], []⟩ "t5" 8080 "1.2.3.4:443" "bogus" (by decide)⟩

/-- C9: binary resolution tries the fixed install path first; an absent
path falls back to the `PATH` lookup; both failing yields the not-found
error and an existing but non-executable well-known binary yields the
not-executable error — and in either failure case `start_forward` returns
that error with no process spawned and no log sink opened. -/
theorem binary_resolution_order_and_failures :
    (∀ env : StartEnv, env.wellKnownExists = true →
       env.wellKnownExecutable = true →
       resolveBinary env = .ok "/usr/local/bin/gost") ∧
    (∀ (env : StartEnv) (p : String), env.wellKnownExists = false →
       env.pathLookup = some p → resolveBinary env = .ok p) ∧
    (∀ env : StartEnv, env.wellKnownExists = false → env.pathLookup = none →
       resolveBinary env = .error .binaryNotFound) ∧
    (∀ env : StartEnv, env.wellKnownExists = true →
       env.wellKnownExecutable = false →
       resolveBinary env = .error .binaryNotExecutable) ∧
    (∀ (env : StartEnv) (g : GostForwarder) (tunnel_id : String)
       (local_port : Nat) (forward_to : String) (tunnel_type : String)
       (cmd : List String) (e : FwdErr),
       buildGostCmd tunnel_type local_port forward_to = .ok cmd →
       resolveBinary env = .error e →
       (start_forward env g tunnel_id local_port forward_to tunnel_type).1 =
         .error e ∧
       hasSpawn (start_forward env g tunnel_id local_port forward_to
         tunnel_type).2.2 = false ∧
       hasOpenLog (start_forward env g tunnel_id local_port forward_to
         tunnel_type).2.2 = false) := by
  refine ⟨?_, ?_, ?_, ?_, ?_⟩
  · intro env h1 h2
    unfold resolveBinary
    rw [h1, h2]
    rfl
  · intro env p h1 h2
    unfold resolveBinary
    rw [h1, h2]
    rfl
  · intro env h1 h2
    unfold resolveBinary
    rw [h1, h2]
    rfl
  · intro env h1 h2
    unfold resolveBinary
    rw [h1, h2]
    rfl
  · intro env g tunnel_id local_port forward_to tunnel_type cmd e hcmd hbin
    have hc : startCore env (startStopPhase g tunnel_id).1 tunnel_id
        local_port forward_to tunnel_type =
        (.error e, (startStopPhase g tunnel_id).1, [Ev.logErr]) := by
      unfold startCore
      rw [hcmd, hbin]
    rw [start_forward_eq, hc]
    have ht := startStopPhase_events_tame g tunnel_id
    refine ⟨rfl, ?_, ?_⟩
    · rw [hasSpawn_append, ht.1]
      rfl
    · rw [hasOpenLog_append, ht.2]
      rfl

/-- Witness for C9: both resolution sources absent on a concrete call. -/
theorem binary_resolution_order_and_failures_witness :
    resolveBinary ⟨false, true, none, .ok 41, none, false, true, true, none,
      9, .graceful⟩ = .error .binaryNotFound ∧
    (start_forward ⟨false, true, none, .ok 41, none, false, true, true,
        none, 9, .graceful⟩ ⟨[], []⟩ "t9" 8080 "1.2.3.4:443" "tcp").1 =
      .error .binaryNotFound ∧
    hasSpawn (start_forward ⟨false, true, none, .ok 41, none, false, true,
        true, none, 9, .graceful⟩ ⟨[], []⟩ "t9" 8080 "1.2.3.4:443"
        "tcp").2.2 = false :=
  ⟨binary_resolution_order_and_failures.2.2.1
     ⟨false, true, none, .ok 41, none, false, true, true, none, 9,
      .graceful⟩ rfl rfl,
   (binary_resolution_order_and_failures.2.2.2.2
     ⟨false, true, none, .ok 41, none, false, true, true, none, 9,
      .graceful⟩ ⟨[], []⟩ "t9" 8080 "1.2.3.4:443" "tcp" _ .binaryNotFound
     rfl rfl).1,
   (binary_resolution_order_and_failures.2.2.2.2
     ⟨false, true, none, .ok 41, none, false, true, true, none, 9,
      .graceful⟩ ⟨[], []⟩ "t9" 8080 "1.2.3.4:443" "tcp" _ .binaryNotFound
     rfl rfl).2.1⟩

/-- C10: an error inside the port-verification phase — here, the spawned
process found dead by the poll at line 174 after both probe attempts
failed — is caught by the `except Exception` at line 181 and downgraded to
a warning, so `start_forward` still returns success and registers the
already-dead process handle together with its config. -/
theorem verify_error_downgraded_registers_dead :
    ∀ (env : StartEnv) (g : GostForwarder) (tunnel_id : String)
      (local_port : Nat) (forward_to : String) (tunnel_type : String)
      (cmd : List String) (bin : String) (pid : Nat) (c : Int),
      buildGostCmd tunnel_type local_port forward_to = .ok cmd →
      resolveBinary env = .ok bin →
      env.spawnResult = .ok pid →
      env.pollAfterGrace = none →
      env.probeRaises = false →
      env.portListening1 = false →
      env.portListening2 = false →
      env.pollAfterProbe = some c →
      (start_forward env g tunnel_id local_port forward_to tunnel_type).1 =
        .ok () ∧
      alLookup (start_forward env g tunnel_id local_port forward_to
          tunnel_type).2.1.active_forwards tunnel_id =
        some (.proc ⟨pid, some c, env.newProcTermBehavior⟩) ∧
      alLookup (start_forward env g tunnel_id local_port forward_to
          tunnel_type).2.1.forward_configs tunnel_id =
        some ⟨local_port, forward_to, tunnel_type⟩ ∧
      Ev.logWarn ∈ (start_forward env g tunnel_id local_port forward_to
        tunnel_type).2.2 := by
  intro env g tunnel_id local_port forward_to tunnel_type cmd bin pid c
  intro hcmd hbin hsp hpoll hpr hp1 hp2 hpp
  have hprobe : probePhase env = ([Ev.sleep 500, Ev.logWarn], some c) := by
    unfold probePhase
    rw [hpr, hp1, hp2, hpp]
    rfl
  have hc : startCore env (startStopPhase g tunnel_id).1 tunnel_id
      local_port forward_to tunnel_type =
      (.ok (),
       { active_forwards :=
           (alInsert (alInsert (startStopPhase g tunnel_id).1.active_forwards
               (tunnel_id ++ "_log") (RegEntry.logFile ⟨env.newLogFid⟩))
             tunnel_id
             (RegEntry.proc ⟨pid, some c, env.newProcTermBehavior⟩)),
         forward_configs :=
           (alInsert (startStopPhase g tunnel_id).1.forward_configs tunnel_id
             ⟨local_port, forward_to, tunnel_type⟩) },
       [Ev.openLog env.newLogFid, Ev.spawn pid (bin :: cmd.tail),
        Ev.sleep 1500, Ev.sleep 500] ++ [Ev.sleep 500, Ev.logWarn]) := by
    unfold startCore startSpawn
    rw [hcmd, hbin, hsp, hpoll]
    dsimp only
    rw [hprobe]
  rw [start_forward_eq, hc]
  refine ⟨rfl, ?_, ?_, ?_⟩
  · exact alLookup_alInsert_self _ _ _
  · exact alLookup_alInsert_self _ _ _
  · simp

/-- Witness for C10 at a concrete supervisor: start reports success and
stores a handle whose poll already returned exit code 1. -/
theorem verify_error_downgraded_registers_dead_witness :
    (start_forward ⟨true, true, none, .ok 55, none, false, false, false,
        some 1, 7, .graceful⟩ ⟨[], []⟩ "t10" 8080 "1.2.3.4:443" "tcp").1 =
      .ok () ∧
    alLookup (start_forward ⟨true, true, none, .ok 55, none, false, false,
        false, some 1, 7, .graceful⟩ ⟨[], []⟩ "t10" 8080 "1.2.3.4:443"
        "tcp").2.1.active_forwards "t10" =
      some (.proc ⟨55, some 1, .graceful⟩) ∧
    alLookup (start_forward ⟨true, true, none, .ok 55, none, false, false,
        false, some 1, 7, .graceful⟩ ⟨[], []⟩ "t10" 8080 "1.2.3.4:443"
        "tcp").2.1.forward_configs "t10" =
      some ⟨8080, "1.2.3.4:443", "tcp"⟩ ∧
    Ev.logWarn ∈ (start_forward ⟨true, true, none, .ok 55, none, false,
        false, false, some 1, 7, .graceful⟩ ⟨[], []⟩ "t10" 8080
        "1.2.3.4:443" "tcp").2.2 :=
  verify_error_downgraded_registers_dead
    ⟨true, true, none, .ok 55, none, false, false, false, some 1, 7,
     .graceful⟩ ⟨[], []⟩ "t10" 8080 "1.2.3.4:443" "tcp" _ _ 55 1
    rfl rfl rfl rfl rfl rfl rfl rfl

/-- Shape of a successful spawn path of `start_forward` after the
stop-before-start phase, for any state `S` it starts from. -/
theorem startCore_success_shape (env : StartEnv) (S : GostForwarder)
    (tunnel_id : String) (local_port : Nat) (forward_to : String)
    (tunnel_type : String) (cmd : List String) (bin : String) (pid : Nat)
    (hcmd : buildGostCmd tunnel_type local_port forward_to = .ok cmd)
    (hbin : resolveBinary env = .ok bin)
    (hsp : env.spawnResult = .ok pid)
    (hpoll : env.pollAfterGrace = none) :
    startCore env S tunnel_id local_port forward_to tunnel_type =
      (.ok (),
       { active_forwards :=
           (alInsert (alInsert S.active_forwards (tunnel_id ++ "_log")
               (RegEntry.logFile ⟨env.newLogFid⟩)) tunnel_id
             (RegEntry.proc ⟨pid, (probePhase env).2,
               env.newProcTermBehavior⟩)),
         forward_configs :=
           (alInsert S.forward_configs tunnel_id
             ⟨local_port, forward_to, tunnel_type⟩) },
       [Ev.openLog env.newLogFid, Ev.spawn pid (bin :: cmd.tail),
        Ev.sleep 1500, Ev.sleep 500] ++ (probePhase env).1) := by
  unfold startCore startSpawn
  rw [hcmd, hbin, hsp, hpoll]

/-- C4: start is stop-before-start and never additive.  First, whenever an
entry already exists, the event trace of `start_forward` begins with the
full `stop_forward` trace followed by the 0.5 s settle delay, and no spawn
happens inside that prefix.  Second, two successive successful starts with
identical arguments leave exactly one registry binding for the tunnel id —
the second process handle — and the second call's trace shows the first
process being terminated after a full stop with the settle delay. -/
theorem start_stop_before_start_and_idempotent :
    (∀ (env : StartEnv) (g : GostForwarder) (tunnel_id : String)
       (local_port : Nat) (forward_to : String) (tunnel_type : String),
       alContains g.active_forwards tunnel_id = true →
       ∃ rest,
         (start_forward env g tunnel_id local_port forward_to
           tunnel_type).2.2 =
           (stopOk g tunnel_id).2 ++ Ev.sleep 500 :: rest ∧
         hasSpawn (stopOk g tunnel_id).2 = false) ∧
    (∀ (env1 env2 : StartEnv) (g0 : GostForwarder) (tunnel_id : String)
       (local_port : Nat) (forward_to : String) (tunnel_type : String)
       (cmd : List String) (bin1 bin2 : String) (pid1 pid2 : Nat),
       buildGostCmd tunnel_type local_port forward_to = .ok cmd →
       resolveBinary env1 = .ok bin1 →
       env1.spawnResult = .ok pid1 →
       env1.pollAfterGrace = none →
       env1.newProcTermBehavior = .graceful →
       resolveBinary env2 = .ok bin2 →
       env2.spawnResult = .ok pid2 →
       env2.pollAfterGrace = none →
       (start_forward env1 g0 tunnel_id local_port forward_to
         tunnel_type).1 = .ok () ∧
       (start_forward env2
         (start_forward env1 g0 tunnel_id local_port forward_to
           tunnel_type).2.1
         tunnel_id local_port forward_to tunnel_type).1 = .ok () ∧
       alLookup (start_forward env2
           (start_forward env1 g0 tunnel_id local_port forward_to
             tunnel_type).2.1
           tunnel_id local_port forward_to tunnel_type).2.1.active_forwards
           tunnel_id =
         some (.proc ⟨pid2, (probePhase env2).2,
           env2.newProcTermBehavior⟩) ∧
       countKey (start_forward env2
           (start_forward env1 g0 tunnel_id local_port forward_to
             tunnel_type).2.1
           tunnel_id local_port forward_to tunnel_type).2.1.active_forwards
           tunnel_id = 1 ∧
       Ev.terminate pid1 ∈ (start_forward env2
           (start_forward env1 g0 tunnel_id local_port forward_to
             tunnel_type).2.1
           tunnel_id local_port forward_to tunnel_type).2.2 ∧
       ∃ rest, (start_forward env2
           (start_forward env1 g0 tunnel_id local_port forward_to
             tunnel_type).2.1
           tunnel_id local_port forward_to tunnel_type).2.2 =
         (stopOk (start_forward env1 g0 tunnel_id local_port forward_to
             tunnel_type).2.1 tunnel_id).2 ++ Ev.sleep 500 :: rest) := by
  constructor
  · intro env g tunnel_id local_port forward_to tunnel_type hcont
    rw [start_forward_eq, startStopPhase_of_contains g tunnel_id hcont]
    refine ⟨(startCore env (stopOk g tunnel_id).1 tunnel_id local_port
      forward_to tunnel_type).2.2, ?_, (stopOk_events_tame g tunnel_id).1⟩
    simp
  · intro env1 env2 g0 tunnel_id local_port forward_to tunnel_type cmd
    intro bin1 bin2 pid1 pid2 hcmd hbin1 hsp1 hpoll1 htb1 hbin2 hsp2 hpoll2
    have hcore1 := startCore_success_shape env1
      (startStopPhase g0 tunnel_id).1 tunnel_id local_port forward_to
      tunnel_type cmd bin1 pid1 hcmd hbin1 hsp1 hpoll1
    rw [htb1] at hcore1
    have h1ok : (start_forward env1 g0 tunnel_id local_port forward_to
        tunnel_type).1 = .ok () := by
      rw [start_forward_eq, hcore1]
    have hg1 : (start_forward env1 g0 tunnel_id local_port forward_to
        tunnel_type).2.1 =
        { active_forwards :=
            (alInsert (alInsert
                (startStopPhase g0 tunnel_id).1.active_forwards
                (tunnel_id ++ "_log")
                (RegEntry.logFile ⟨env1.newLogFid⟩)) tunnel_id
              (RegEntry.proc ⟨pid1, (probePhase env1).2,
                TermBehavior.graceful⟩)),
          forward_configs :=
            (alInsert (startStopPhase g0 tunnel_id).1.forward_configs
              tunnel_id ⟨local_port, forward_to, tunnel_type⟩) } := by
      rw [start_forward_eq, hcore1]
    refine ⟨h1ok, ?_⟩
    rw [hg1]
    set A1 := (alInsert (alInsert
        (startStopPhase g0 tunnel_id).1.active_forwards
        (tunnel_id ++ "_log") (RegEntry.logFile ⟨env1.newLogFid⟩)) tunnel_id
      (RegEntry.proc ⟨pid1, (probePhase env1).2, TermBehavior.graceful⟩))
      with hA1def
    set G1 : GostForwarder :=
      { active_forwards := A1,
        forward_configs :=
          (alInsert (startStopPhase g0 tunnel_id).1.forward_configs
            tunnel_id ⟨local_port, forward_to, tunnel_type⟩) } with hG1def
    have hlook1 : alLookup G1.active_forwards tunnel_id =
        some (RegEntry.proc ⟨pid1, (probePhase env1).2,
          TermBehavior.graceful⟩) := by
      rw [hG1def, hA1def]
      exact alLookup_alInsert_self _ _ _
    have hcont1 : alContains G1.active_forwards tunnel_id = true := by
      rw [alContains, hlook1]
      rfl
    have hlogkey : alLookup (alErase G1.active_forwards tunnel_id)
        (tunnel_id ++ "_log") =
        some (RegEntry.logFile ⟨env1.newLogFid⟩) := by
      rw [alLookup_alErase_ne _ _ _ (string_ne_append_log tunnel_id)]
      rw [hG1def, hA1def]
      dsimp only
      rw [alLookup_alInsert_ne _ _ _ _ (string_ne_append_log tunnel_id)]
      exact alLookup_alInsert_self _ _ _
    have hshp : stopHandlePhase G1 tunnel_id =
        (alErase (alErase G1.active_forwards tunnel_id)
          (tunnel_id ++ "_log"),
         [Ev.terminate pid1, Ev.waitEv pid1,
          Ev.closeLog env1.newLogFid]) := by
      unfold stopHandlePhase
      rw [hlook1]
      dsimp only
      rw [hlogkey]
      rfl
    have hstop : stopOk G1 tunnel_id =
        ({ active_forwards :=
             alErase (alErase G1.active_forwards tunnel_id)
               (tunnel_id ++ "_log"),
           forward_configs := alErase G1.forward_configs tunnel_id },
         [Ev.terminate pid1, Ev.waitEv pid1, Ev.closeLog env1.newLogFid] ++
           stopSweepEvents G1 tunnel_id) := by
      rw [stopOk_eq, hshp]
    have hssp : startStopPhase G1 tunnel_id =
        ((stopOk G1 tunnel_id).1,
         (stopOk G1 tunnel_id).2 ++ [Ev.sleep 500]) :=
      startStopPhase_of_contains G1 tunnel_id hcont1
    have hcore2 := startCore_success_shape env2
      (startStopPhase G1 tunnel_id).1 tunnel_id local_port forward_to
      tunnel_type cmd bin2 pid2 hcmd hbin2 hsp2 hpoll2
    have hE2 : alLookup (stopOk G1 tunnel_id).1.active_forwards
        tunnel_id = none := stopOk_lookup_self G1 tunnel_id
    have hE2c : countKey (stopOk G1 tunnel_id).1.active_forwards
        tunnel_id = 0 := stopOk_countKey_self G1 tunnel_id
    refine ⟨?_, ?_, ?_, ?_, ?_⟩
    · rw [start_forward_eq, hcore2]
    · rw [start_forward_eq, hcore2]
      dsimp only
      exact alLookup_alInsert_self _ _ _
    · rw [start_forward_eq, hcore2]
      dsimp only
      rw [countKey_alInsert_of_lookup_none]
      · rw [countKey_alInsert_ne _ _ _ _ (append_log_ne_string tunnel_id)]
        rw [hssp]
        rw [hE2c]
      · rw [alLookup_alInsert_ne _ _ _ _ (append_log_ne_string tunnel_id)]
        rw [hssp]
        exact hE2
    · rw [start_forward_eq, hcore2]
      dsimp only
      rw [hssp, hstop]
      simp
    · rw [start_forward_eq, hcore2]
      dsimp only
      rw [hssp]
      refine ⟨[Ev.openLog env2.newLogFid, Ev.spawn pid2 (bin2 :: cmd.tail),
        Ev.sleep 1500, Ev.sleep 500] ++ (probePhase env2).1, ?_⟩
      simp

/-- Witness for C4: two concrete successful starts of the same tunnel; the
registry ends with exactly one binding, the second handle, and the second
call's trace terminates the first pid. -/
theorem start_stop_before_start_and_idempotent_witness :
    (start_forward ⟨true, true, none, .ok 22, none, false, true, true, none,
        102, .ignoresTerm⟩
      (start_forward ⟨true, true, none, .ok 11, none, false, true, true,
          none, 101, .graceful⟩ ⟨[], []⟩ "t4" 8080 "1.2.3.4:443" "tcp").2.1
      "t4" 8080 "1.2.3.4:443" "tcp").1 = .ok () ∧
    alLookup (start_forward ⟨true, true, none, .ok 22, none, false, true,
        true, none, 102, .ignoresTerm⟩
      (start_forward ⟨true, true, none, .ok 11, none, false, true, true,
          none, 101, .graceful⟩ ⟨[], []⟩ "t4" 8080 "1.2.3.4:443" "tcp").2.1
      "t4" 8080 "1.2.3.4:443" "tcp").2.1.active_forwards "t4" =
      some (.proc ⟨22, none, .ignoresTerm⟩) ∧
    countKey (start_forward ⟨true, true, none, .ok 22, none, false, true,
        true, none, 102, .ignoresTerm⟩
      (start_forward ⟨true, true, none, .ok 11, none, false, true, true,
          none, 101, .graceful⟩ ⟨[], []⟩ "t4" 8080 "1.2.3.4:443" "tcp").2.1
      "t4" 8080 "1.2.3.4:443" "tcp").2.1.active_forwards "t4" = 1 ∧
    Ev.terminate 11 ∈ (start_forward ⟨true, true, none, .ok 22, none, false,
        true, true, none, 102, .ignoresTerm⟩
      (start_forward ⟨true, true, none, .ok 11, none, false, true, true,
          none, 101, .graceful⟩ ⟨[], []⟩ "t4" 8080 "1.2.3.4:443" "tcp").2.1
      "t4" 8080 "1.2.3.4:443" "tcp").2.2 :=
  let H := start_stop_before_start_and_idempotent.2
    ⟨true, true, none, .ok 11, none, false, true, true, none, 101,
     .graceful⟩
    ⟨true, true, none, .ok 22, none, false, true, true, none, 102,
     .ignoresTerm⟩
    ⟨[], []⟩ "t4" 8080 "1.2.3.4:443" "tcp" _ _ _ 11 22
    rfl rfl rfl rfl rfl rfl rfl rfl
  ⟨H.2.1, H.2.2.1, H.2.2.2.1, H.2.2.2.2.1⟩

/-- Any failing `start_forward` leaves no binding under the tunnel id key
itself: the pre-stop removed any old one and every error path returns
before the line-184 registration. -/
theorem start_error_lookup_none :
    ∀ (env : StartEnv) (g : GostForwarder) (tunnel_id : String)
      (local_port : Nat) (forward_to : String) (tunnel_type : String),
      (start_forward env g tunnel_id local_port forward_to
        tunnel_type).1.isOk = false →
      alLookup (start_forward env g tunnel_id local_port forward_to
        tunnel_type).2.1.active_forwards tunnel_id = none := by
  intro env g tunnel_id local_port forward_to tunnel_type h
  rw [start_forward_eq] at h ⊢
  cases hb : buildGostCmd tunnel_type local_port forward_to with
  | error e =>
    have hc : startCore env (startStopPhase g tunnel_id).1 tunnel_id
        local_port forward_to tunnel_type =
        (.error e, (startStopPhase g tunnel_id).1, [Ev.logErr]) := by
      unfold startCore
      rw [hb]
    rw [hc]
    exact startStopPhase_lookup_self g tunnel_id
  | ok cmd =>
    cases hr : resolveBinary env with
    | error e =>
      have hc : startCore env (startStopPhase g tunnel_id).1 tunnel_id
          local_port forward_to tunnel_type =
          (.error e, (startStopPhase g tunnel_id).1, [Ev.logErr]) := by
        unfold startCore
        rw [hb, hr]
      rw [hc]
      exact startStopPhase_lookup_self g tunnel_id
    | ok bin =>
      cases hs : env.spawnResult with
      | error u =>
        have hc : startCore env (startStopPhase g tunnel_id).1 tunnel_id
            local_port forward_to tunnel_type =
            (.error .spawnFailed, (startStopPhase g tunnel_id).1,
             [Ev.openLog env.newLogFid, Ev.logErr]) := by
          unfold startCore startSpawn
          rw [hb, hr, hs]
        rw [hc]
        exact startStopPhase_lookup_self g tunnel_id
      | ok pid =>
        cases hp : env.pollAfterGrace with
        | some c =>
          have hc : startCore env (startStopPhase g tunnel_id).1 tunnel_id
              local_port forward_to tunnel_type =
              (.error (.processExitedImmediately c),
               { (startStopPhase g tunnel_id).1 with active_forwards :=
                   (alInsert
                     (startStopPhase g tunnel_id).1.active_forwards
                     (tunnel_id ++ "_log")
                     (RegEntry.logFile ⟨env.newLogFid⟩)) },
               [Ev.openLog env.newLogFid, Ev.spawn pid (bin :: cmd.tail),
                Ev.sleep 1500, Ev.logErr]) := by
            unfold startCore startSpawn
            rw [hb, hr, hs, hp]
          rw [hc]
          dsimp only
          rw [alLookup_alInsert_ne _ _ _ _ (append_log_ne_string tunnel_id)]
          exact startStopPhase_lookup_self g tunnel_id
        | none =>
          have hc := startCore_success_shape env
            (startStopPhase g tunnel_id).1 tunnel_id local_port forward_to
            tunnel_type cmd bin pid hb hr hs hp
          rw [hc] at h
          simp [Except.isOk, Except.toBool] at h

/-- C6: on an entry whose process has exited and whose config is stored,
`is_forwarding` performs exactly one restart by calling `start_forward`
with the stored config and reports the restart's outcome; a failed restart
leaves the registry with no binding for the tunnel id (the stop inside
`start_forward` removed the dead one, and error paths register nothing
under the id). -/
theorem is_active_restart_contract :
    ∀ (env : StartEnv) (g : GostForwarder) (tunnel_id : String)
      (p : ProcHandle) (c : Int) (cfg : FwdConfig),
      alLookup g.active_forwards tunnel_id = some (.proc p) →
      p.exitCode = some c →
      alLookup g.forward_configs tunnel_id = some cfg →
      ((start_forward env g tunnel_id cfg.local_port cfg.forward_to
          cfg.tunnel_type).1.isOk = true →
        is_forwarding env g tunnel_id =
          (.ok true,
           (start_forward env g tunnel_id cfg.local_port cfg.forward_to
             cfg.tunnel_type).2.1,
           Ev.logWarn :: (start_forward env g tunnel_id cfg.local_port
             cfg.forward_to cfg.tunnel_type).2.2)) ∧
      ((start_forward env g tunnel_id cfg.local_port cfg.forward_to
          cfg.tunnel_type).1.isOk = false →
        is_forwarding env g tunnel_id =
          (.ok false,
           (start_forward env g tunnel_id cfg.local_port cfg.forward_to
             cfg.tunnel_type).2.1,
           Ev.logWarn :: ((start_forward env g tunnel_id cfg.local_port
             cfg.forward_to cfg.tunnel_type).2.2 ++ [Ev.logErr])) ∧
        alLookup (start_forward env g tunnel_id cfg.local_port
          cfg.forward_to cfg.tunnel_type).2.1.active_forwards tunnel_id =
          none) := by
  intro env g tunnel_id p c cfg hA hpc hC
  unfold is_forwarding
  rw [hA]
  dsimp only
  rw [hpc]
  dsimp only
  rw [hC]
  dsimp only
  constructor
  · intro hok
    cases ht : (start_forward env g tunnel_id cfg.local_port cfg.forward_to
        cfg.tunnel_type).1 with
    | ok u =>
      cases u
      rfl
    | error e =>
      rw [ht] at hok
      simp [Except.isOk, Except.toBool] at hok
  · intro hbad
    cases ht : (start_forward env g tunnel_id cfg.local_port cfg.forward_to
        cfg.tunnel_type).1 with
    | ok u =>
      cases u
      rw [ht] at hbad
      simp [Except.isOk, Except.toBool] at hbad
    | error e =>
      exact ⟨rfl, start_error_lookup_none env g tunnel_id cfg.local_port
        cfg.forward_to cfg.tunnel_type hbad⟩

/-- Witness for C6: a dead tracked process with a stored config, restart
failing because the binary resolves nowhere; liveness is reported false
and the entry is gone. -/
theorem is_active_restart_contract_witness :
    is_forwarding ⟨false, true, none, .ok 33, none, false, true, true, none,
        9, .graceful⟩
      ⟨[("t6", .proc ⟨3, some 1, .graceful⟩)],
       [("t6", ⟨8080, "1.2.3.4:443", "tcp"⟩)]⟩ "t6" =
      (.ok false,
       (start_forward ⟨false, true, none, .ok 33, none, false, true, true,
           none, 9, .graceful⟩
         ⟨[("t6", .proc ⟨3, some 1, .graceful⟩)],
          [("t6", ⟨8080, "1.2.3.4:443", "tcp"⟩)]⟩ "t6" 8080 "1.2.3.4:443"
         "tcp").2.1,
       Ev.logWarn :: ((start_forward ⟨false, true, none, .ok 33, none,
           false, true, true, none, 9, .graceful⟩
         ⟨[("t6", .proc ⟨3, some 1, .graceful⟩)],
          [("t6", ⟨8080, "1.2.3.4:443", "tcp"⟩)]⟩ "t6" 8080 "1.2.3.4:443"
         "tcp").2.2 ++ [Ev.logErr])) ∧
    alLookup (start_forward ⟨false, true, none, .ok 33, none, false, true,
        true, none, 9, .graceful⟩
      ⟨[("t6", .proc ⟨3, some 1, .graceful⟩)],
       [("t6", ⟨8080, "1.2.3.4:443", "tcp"⟩)]⟩ "t6" 8080 "1.2.3.4:443"
      "tcp").2.1.active_forwards "t6" = none :=
  (is_active_restart_contract
    ⟨false, true, none, .ok 33, none, false, true, true, none, 9,
     .graceful⟩
    ⟨[("t6", .proc ⟨3, some 1, .graceful⟩)],
     [("t6", ⟨8080, "1.2.3.4:443", "tcp"⟩)]⟩ "t6"
    ⟨3, some 1, .graceful⟩ 1 ⟨8080, "1.2.3.4:443", "tcp"⟩
    rfl rfl rfl).2 (by decide)

/-- Counterexample for C2: a concrete start whose process exits within the
grace window returns an error, yet the opened log sink is left open (no
close event) and stays registered under `"t2_log"` — the registry is not
left untouched and the partially-created resource is not released. -/
theorem start_failure_leaks_log_counterexample :
    (start_forward ⟨true, true, none, .ok 5, some 1, false, false, false,
        none, 9, .graceful⟩ ⟨[], []⟩ "t2" 8080 "1.2.3.4:443" "tcp").1 =
      .error (.processExitedImmediately 1) ∧
    (start_forward ⟨true, true, none, .ok 5, some 1, false, false, false,
        none, 9, .graceful⟩ ⟨[], []⟩ "t2" 8080 "1.2.3.4:443"
        "tcp").2.1.active_forwards = [("t2_log", .logFile ⟨9⟩)] ∧
    hasOpenLog (start_forward ⟨true, true, none, .ok 5, some 1, false,
        false, false, none, 9, .graceful⟩ ⟨[], []⟩ "t2" 8080 "1.2.3.4:443"
        "tcp").2.2 = true ∧
    hasCloseLog (start_forward ⟨true, true, none, .ok 5, some 1, false,
        false, false, none, 9, .graceful⟩ ⟨[], []⟩ "t2" 8080 "1.2.3.4:443"
        "tcp").2.2 = false := by
  refine ⟨rfl, by decide, rfl, rfl⟩

/-- C2 as amended: a failing `start_forward` on a fresh tunnel adds no
binding under the tunnel id key itself and leaves `forward_configs`
untouched, and failures before the log sink opens create no resources; but
an opened log sink is never closed on the error paths, and on
immediate process exit the open handle additionally remains registered
under the synthetic key `tunnel_id ++ "_log"`. -/
theorem start_failure_cleanup_amended :
    ∀ (env : StartEnv) (g : GostForwarder) (tunnel_id : String)
      (local_port : Nat) (forward_to : String) (tunnel_type : String),
      alContains g.active_forwards tunnel_id = false →
      (start_forward env g tunnel_id local_port forward_to
        tunnel_type).1.isOk = false →
      alLookup (start_forward env g tunnel_id local_port forward_to
        tunnel_type).2.1.active_forwards tunnel_id = none ∧
      (start_forward env g tunnel_id local_port forward_to
        tunnel_type).2.1.forward_configs = g.forward_configs ∧
      hasCloseLog (start_forward env g tunnel_id local_port forward_to
        tunnel_type).2.2 = false ∧
      (∀ (cmd : List String) (bin : String) (pid : Nat) (c : Int),
        buildGostCmd tunnel_type local_port forward_to = .ok cmd →
        resolveBinary env = .ok bin →
        env.spawnResult = .ok pid →
        env.pollAfterGrace = some c →
        alLookup (start_forward env g tunnel_id local_port forward_to
          tunnel_type).2.1.active_forwards (tunnel_id ++ "_log") =
          some (.logFile ⟨env.newLogFid⟩) ∧
        hasOpenLog (start_forward env g tunnel_id local_port forward_to
          tunnel_type).2.2 = true) := by
  intro env g tunnel_id local_port forward_to tunnel_type hnc h
  have hs0 := startStopPhase_of_not_contains g tunnel_id hnc
  have hnone : alLookup g.active_forwards tunnel_id = none := by
    cases hL : alLookup g.active_forwards tunnel_id with
    | none => rfl
    | some v =>
      rw [alContains, hL] at hnc
      simp at hnc
  rw [start_forward_eq] at h ⊢
  rw [hs0] at h ⊢
  dsimp only
  cases hb : buildGostCmd tunnel_type local_port forward_to with
  | error e =>
    have hc : startCore env g tunnel_id local_port forward_to tunnel_type =
        (.error e, g, [Ev.logErr]) := by
      unfold startCore
      rw [hb]
    rw [hc]
    refine ⟨hnone, rfl, rfl, ?_⟩
    intro cmd bin pid c h1 h2 h3 h4
    exact Except.noConfusion h1
  | ok cmd =>
    cases hr : resolveBinary env with
    | error e =>
      have hc : startCore env g tunnel_id local_port forward_to
          tunnel_type = (.error e, g, [Ev.logErr]) := by
        unfold startCore
        rw [hb, hr]
      rw [hc]
      refine ⟨hnone, rfl, rfl, ?_⟩
      intro cmd' bin pid c h1 h2 h3 h4
      exact Except.noConfusion h2
    | ok bin =>
      cases hs : env.spawnResult with
      | error u =>
        have hc : startCore env g tunnel_id local_port forward_to
            tunnel_type = (.error .spawnFailed, g,
              [Ev.openLog env.newLogFid, Ev.logErr]) := by
          unfold startCore startSpawn
          rw [hb, hr, hs]
        rw [hc]
        refine ⟨hnone, rfl, rfl, ?_⟩
        intro cmd' bin' pid c h1 h2 h3 h4
        exact Except.noConfusion h3
      | ok pid =>
        cases hp : env.pollAfterGrace with
        | some c =>
          have hc : startCore env g tunnel_id local_port forward_to
              tunnel_type =
              (.error (.processExitedImmediately c),
               { g with active_forwards :=
                   (alInsert g.active_forwards (tunnel_id ++ "_log")
                     (RegEntry.logFile ⟨env.newLogFid⟩)) },
               [Ev.openLog env.newLogFid, Ev.spawn pid (bin :: cmd.tail),
                Ev.sleep 1500, Ev.logErr]) := by
            unfold startCore startSpawn
            rw [hb, hr, hs, hp]
          rw [hc]
          refine ⟨?_, rfl, rfl, ?_⟩
          · dsimp only
            rw [alLookup_alInsert_ne _ _ _ _
              (append_log_ne_string tunnel_id)]
            exact hnone
          · intro cmd' bin' pid' c' h1 h2 h3 h4
            dsimp only
            exact ⟨alLookup_alInsert_self _ _ _, rfl⟩
        | none =>
          have hc := startCore_success_shape env g tunnel_id local_port
            forward_to tunnel_type cmd bin pid hb hr hs hp
          rw [hc] at h
          simp [Except.isOk, Except.toBool] at h

/-- Witness for C2's amended statement: the immediate-exit failure of the
counterexample environment, showing the leaked, still-registered log sink
and the untouched id key and config map. -/
theorem start_failure_cleanup_amended_witness :
    alLookup (start_forward ⟨true, true, none, .ok 5, some 1, false, false,
        false, none, 9, .graceful⟩ ⟨[], []⟩ "t2" 8080 "1.2.3.4:443"
        "tcp").2.1.active_forwards "t2" = none ∧
    (start_forward ⟨true, true, none, .ok 5, some 1, false, false, false,
        none, 9, .graceful⟩ ⟨[], []⟩ "t2" 8080 "1.2.3.4:443"
        "tcp").2.1.forward_configs = [] ∧
    alLookup (start_forward ⟨true, true, none, .ok 5, some 1, false, false,
        false, none, 9, .graceful⟩ ⟨[], []⟩ "t2" 8080 "1.2.3.4:443"
        "tcp").2.1.active_forwards ("t2" ++ "_log") =
      some (.logFile ⟨9⟩) ∧
    hasOpenLog (start_forward ⟨true, true, none, .ok 5, some 1, false,
        false, false, none, 9, .graceful⟩ ⟨[], []⟩ "t2" 8080 "1.2.3.4:443"
        "tcp").2.2 = true :=
  let H := start_failure_cleanup_amended
    ⟨true, true, none, .ok 5, some 1, false, false, false, none, 9,
     .graceful⟩ ⟨[], []⟩ "t2" 8080 "1.2.3.4:443" "tcp" rfl (by decide)
  ⟨H.1, H.2.1, (H.2.2.2 _ "/usr/local/bin/gost" 5 1 rfl rfl rfl rfl).1,
   (H.2.2.2 _ "/usr/local/bin/gost" 5 1 rfl rfl rfl rfl).2⟩

/-- C1 (code defect): `get_forwarding_tunnels` calls `poll()` on every
value of `active_forwards`, but a successful start also stores the open
log-file handle there under `tunnel_id ++ "_log"` (line 126); a file
object has no `poll`, so enumeration raises `AttributeError` instead of
returning the live tunnel ids — both on a state actually produced by
`start_forward` and on the claim's one-live-one-dead registry. -/
theorem list_active_crashes_on_log_handle :
    (start_forward ⟨true, true, none, .ok 41, none, false, true, true, none,
        9, .graceful⟩ ⟨[], []⟩ "t1" 8080 "9.9.9.9:443" "tcp").1 = .ok () ∧
    (get_forwarding_tunnels
      (start_forward ⟨true, true, none, .ok 41, none, false, true, true,
          none, 9, .graceful⟩ ⟨[], []⟩ "t1" 8080 "9.9.9.9:443"
        "tcp").2.1).1 = .error .attributeError ∧
    (get_forwarding_tunnels
      ⟨[("a_log", .logFile ⟨1⟩), ("a", .proc ⟨10, none, .graceful⟩),
        ("b_log", .logFile ⟨2⟩), ("b", .proc ⟨20, some 9, .graceful⟩)],
       [("a", ⟨1000, "n1:443", "tcp"⟩), ("b", ⟨2000, "n2:443", "tcp"⟩)]⟩).1 =
      .error .attributeError := by
  refine ⟨rfl, rfl, rfl⟩

/-- Counterexample for C3: two eligible persisted tunnels; the first one's
start raises, the pass-level handler logs once, and the second tunnel
never receives its start call — a failure does block the remaining
tunnels of the pass. -/
theorem restore_start_failure_blocks_rest_counterexample :
    restore_port_forwards
      (fun port _ _ => if port = 1000 then .error () else .ok ())
      [⟨"tA", "active", "tcp", "xray", 1, ⟨some 1000, none, none, none⟩⟩,
       ⟨"tB", "active", "tcp", "xray", 1, ⟨some 2000, none, none, none⟩⟩]
      [⟨1, some "5.5.5.5"⟩] =
      [RestoreEv.startCall 1000 "5.5.5.5" 1000, RestoreEv.logError] ∧
    RestoreEv.startCall 2000 "5.5.5.5" 2000 ∉
      restore_port_forwards
        (fun port _ _ => if port = 1000 then .error () else .ok ())
        [⟨"tA", "active", "tcp", "xray", 1, ⟨some 1000, none, none, none⟩⟩,
         ⟨"tB", "active", "tcp", "xray", 1, ⟨some 2000, none, none, none⟩⟩]
        [⟨1, some "5.5.5.5"⟩] := by
  refine ⟨rfl, ?_⟩
  decide

/-- C3 as amended: a tunnel missing a required datum (effective port, node
record, node address) is skipped silently — no event, no log — and the
skip does not block the remaining tunnels; a successful start appends its
call and continues; but a raised start failure is caught only by the
pass-level handler, which logs one error and abandons the remaining
tunnels of that pass, while the other restore pass of the boot sequence
still runs. -/
theorem restore_skip_silent_and_failure_aborts_pass :
    (∀ (pfStart : Nat → String → Nat → Except Unit Unit)
       (nodes : List NodeRec) (t : TunnelRec) (rest : List TunnelRec),
       (effectivePort t.tspec = none ∨ findNode nodes t.node_id = none ∨
        (∃ node, findNode nodes t.node_id = some node ∧
          node.ip_address = none)) →
       restorePFLoop pfStart nodes (t :: rest) =
         restorePFLoop pfStart nodes rest) ∧
    (∀ (pfStart : Nat → String → Nat → Except Unit Unit)
       (nodes : List NodeRec) (t : TunnelRec) (rest : List TunnelRec)
       (port : Nat) (addr : String) (node : NodeRec),
       (t.ttype = "tcp" ∨ t.ttype = "ws" ∨ t.ttype = "grpc") →
       t.core = "xray" →
       effectivePort t.tspec = some port →
       findNode nodes t.node_id = some node →
       node.ip_address = some addr →
       ((pfStart port addr port = .ok () →
          restorePFLoop pfStart nodes (t :: rest) =
            RestoreEv.startCall port addr port ::
              restorePFLoop pfStart nodes rest) ∧
        (pfStart port addr port = .error () →
          restorePFLoop pfStart nodes (t :: rest) =
            [RestoreEv.startCall port addr port, RestoreEv.logError]))) ∧
    (∀ (pfStart : Nat → String → Nat → Except Unit Unit)
       (rsStart : String → String → String → Nat → Except Unit Unit)
       (tunnels : List TunnelRec) (nodes : List NodeRec),
       bootRestore pfStart rsStart tunnels nodes =
         restore_port_forwards pfStart tunnels nodes ++
           restore_rathole_servers rsStart tunnels) := by
  refine ⟨?_, ?_, ?_⟩
  · intro pfStart nodes t rest hmiss
    by_cases he : (t.ttype = "tcp" ∨ t.ttype = "ws" ∨ t.ttype = "grpc") ∧
        t.core = "xray"
    · rcases hmiss with h1 | h2 | ⟨node, h3, h4⟩
      · simp only [restorePFLoop]
        rw [if_neg (not_not_intro he), h1]
      · simp only [restorePFLoop]
        rw [if_neg (not_not_intro he)]
        cases hport : effectivePort t.tspec with
        | none => rfl
        | some port =>
          rw [h2]
      · simp only [restorePFLoop]
        rw [if_neg (not_not_intro he)]
        cases hport : effectivePort t.tspec with
        | none => rfl
        | some port =>
          rw [h3]
          dsimp only
          rw [h4]
    · simp only [restorePFLoop]
      rw [if_pos he]
  · intro pfStart nodes t rest port addr node hel hcore hport hnode hip
    have hguard : ¬ ¬ ((t.ttype = "tcp" ∨ t.ttype = "ws" ∨
        t.ttype = "grpc") ∧ t.core = "xray") := not_not_intro ⟨hel, hcore⟩
    constructor
    · intro hok
      simp only [restorePFLoop]
      rw [if_neg hguard, hport]
      dsimp only
      rw [hnode]
      dsimp only
      rw [hip]
      dsimp only
      rw [hok]
    · intro herr
      simp only [restorePFLoop]
      rw [if_neg hguard, hport]
      dsimp only
      rw [hnode]
      dsimp only
      rw [hip]
      dsimp only
      rw [herr]
  · intro pfStart rsStart tunnels nodes
    rfl

/-- Witness for C3's amended statement: a single eligible tunnel whose
start raises yields exactly the one call plus the pass-level error log. -/
theorem restore_skip_silent_and_failure_aborts_pass_witness :
    restorePFLoop (fun _ _ _ => .error ()) [⟨1, some "7.7.7.7"⟩]
      [⟨"tW", "active", "ws", "xray", 1, ⟨some 1500, none, none, none⟩⟩] =
      [RestoreEv.startCall 1500 "7.7.7.7" 1500, RestoreEv.logError] :=
  (restore_skip_silent_and_failure_aborts_pass.2.1
    (fun _ _ _ => .error ()) [⟨1, some "7.7.7.7"⟩]
    ⟨"tW", "active", "ws", "xray", 1, ⟨some 1500, none, none, none⟩⟩ []
    1500 "7.7.7.7" ⟨1, some "7.7.7.7"⟩
    (Or.inr (Or.inl rfl)) rfl rfl rfl rfl).2 rfl
